import Mathlib

/-!
Verification of the goselenium WebDriver client (`src/src/web_driver.go`).

Go strings are embedded as `List Char` so that the string operations the source
uses (`strings.HasPrefix`, `strings.HasSuffix`, `strings.TrimSuffix`, `fmt.Sprintf`
concatenation) become list operations we can reason about. `gs` converts a Lean
string literal to this representation.

The transport capability (`apiService.performRequest`, whose implementation is not
under `src/`) is modelled as an explicit function argument `api : Transport`; each
command additionally returns the list of transport invocations it performed (its
trace) and the driver value after the call, so that "the transport is never
invoked" and "the driver is unchanged" are stateable.
-/

/-- Decidable equality for `Except`, so that concrete command results can be
checked by `decide`. -/
instance {ε α : Type _} [DecidableEq ε] [DecidableEq α] : DecidableEq (Except ε α) :=
  fun x y =>
  match x, y with
  | Except.error a, Except.error b =>
    if h : a = b then Decidable.isTrue (by rw [h])
    else Decidable.isFalse (by intro hc; injection hc; contradiction)
  | Except.error _, Except.ok _ => Decidable.isFalse (fun hc => Except.noConfusion hc)
  | Except.ok _, Except.error _ => Decidable.isFalse (fun hc => Except.noConfusion hc)
  | Except.ok a, Except.ok b =>
    if h : a = b then Decidable.isTrue (by rw [h])
    else Decidable.isFalse (by intro hc; injection hc; contradiction)

/-- A Go string, embedded as its list of characters. -/
abbrev GoString := List Char

/-- Convert a Lean string literal to the `GoString` embedding. -/
def gs (s : String) : GoString := s.toList

/-- `strings.HasPrefix s pre` from the Go standard library. -/
def hasPrefixGo : GoString → GoString → Bool
  | _, [] => true
  | [], _ :: _ => false
  | a :: s, b :: p => (a = b) && hasPrefixGo s p

/-- `strings.HasSuffix s suf` from the Go standard library. -/
def hasSuffixGo (s suf : GoString) : Bool := hasPrefixGo s.reverse suf.reverse

/-- `strings.TrimSuffix s suf` from the Go standard library: drops `suf` from the
end of `s` when present, otherwise returns `s` unchanged. -/
def trimSuffixGo (s suf : GoString) : GoString :=
  if hasSuffixGo s suf = true then s.take (s.length - suf.length) else s

/-- A JSON value, used to model payloads handed to `encoding/json`'s `Unmarshal`. -/
inductive Json where
  | null
  | bool (b : Bool)
  | num (n : Int)
  | str (s : GoString)
  | arr (elems : List Json)
  | obj (fields : List (GoString × Json))

/-- The raw bytes returned by the transport, bundled with their parse status:
either they are not well-formed JSON, or they parse to a `Json` value. The `raw`
component is the verbatim byte string (`string(resp)` in the source). -/
inductive RawPayload where
  | malformed (raw : GoString)
  | wellFormed (v : Json) (raw : GoString)

/-- The verbatim bytes of a payload. -/
def RawPayload.raw : RawPayload → GoString
  | malformed r => r
  | wellFormed _ r => r

/-- Modelled from the spec: the classified error taxonomy of §4.4 (`errors.go` is not
under `src/`; only the constructor calls `newInvalidArgumentError`, `newInvalidURLError`,
`newSessionIDError`, `newCommunicationError`, `newMarshallingError`,
`newUnmarshallingError` appear in the source). Each constructor carries exactly the
arguments the source passes plus what §4.4 says the kind carries: InvalidArgument a
message, parameter name and offending value; InvalidURL the cause and rejected URL;
MissingSession the calling command name; Communication the cause, calling command
name, request URL and raw response bytes; Marshalling the cause, calling command name
and parameter value; Unmarshalling the cause, calling command name and the raw
response text. -/
inductive WDError where
  | invalidArgument (msg param value : GoString)
  | invalidURL (cause url : GoString)
  | missingSession (callingMethod : GoString)
  | communication (cause callingMethod url resp : GoString)
  | marshalling (cause callingMethod value : GoString)
  | unmarshalling (cause callingMethod raw : GoString)
deriving DecidableEq

/-- Modelled from the spec: the browser part of a `Capabilities` descriptor
(`capabilities.go` is not under `src/`); the source only consults
`capabilities.Browser().BrowserName()`. -/
structure Browser where
  browserName : GoString
deriving DecidableEq

/-- Modelled from the spec: "a descriptor of the desired browser/environment sent
when creating a session" (`capabilities.go` is not under `src/`). -/
structure Capabilities where
  browser : Browser
deriving DecidableEq

/-- `capabilities.Browser()`. -/
def Capabilities.Browser (c : Capabilities) : Browser := c.browser

/-- `browser.BrowserName()`. -/
def Browser.BrowserName (b : Browser) : GoString := b.browserName

/-- The `request` struct of the source: one HTTP call description. The `io.Reader`
body is embedded as the byte string it would yield. -/
structure request where
  url : GoString
  method : GoString
  body : Option GoString
  callingMethod : GoString
deriving DecidableEq

/-- The `stateResponse` struct: JSON shape `\x7b state \x7d`. -/
structure stateResponse where
  State : GoString
deriving DecidableEq

/-- The `valueResponse` struct: JSON shape `\x7b state, value \x7d`. -/
structure valueResponse where
  State : GoString
  Value : GoString
deriving DecidableEq

/-- The value stored in a `by` locator (`value interface\x7b\x7d` in the source):
either the uint of `ByIndex` or the string of `ByCSSSelector`. -/
inductive ByValue where
  | uint (n : Nat)
  | str (s : GoString)
deriving DecidableEq

/-- The `by` struct of the source (named `by_` because `by` is reserved in Lean). -/
structure by_ where
  t : GoString
  value : ByValue
deriving DecidableEq

/-- `b.Type()` of a `by` locator. -/
def by_.TypeStr (b : by_) : GoString := b.t

/-- `b.Value()` of a `by` locator. -/
def by_.ValueVal (b : by_) : ByValue := b.value

/-- The `timeout` struct of the source. Go's `int` is signed; it is embedded as
`Int`. The source names the second field `timeout`; Lean cannot give a field the
name of its own structure, so it is `timeoutMs` here. -/
structure timeout where
  timeoutType : GoString
  timeoutMs : Int
deriving DecidableEq

/-- `t.Type()` of a timeout. -/
def timeout.TypeStr (t : timeout) : GoString := t.timeoutType

/-- `t.Timeout()` of a timeout. -/
def timeout.TimeoutVal (t : timeout) : Int := t.timeoutMs

/-- The result of one `performRequest` call: the response bytes and an optional
transport error (`resp []byte, err error` in Go). -/
structure TransportResult where
  resp : RawPayload
  err : Option GoString

/-- The transport capability: `performRequest(url, method, body)` as a pure function
of the request. -/
abbrev Transport := request → TransportResult

/-- `SessionScriptTimeout` from the source: no validation is performed. The source
names the parameter `to`, a reserved token in Lean, hence `toMs`. -/
def SessionScriptTimeout (toMs : Int) : timeout := ⟨gs "script", toMs⟩

/-- `SessionPageLoadTimeout` from the source: no validation is performed. -/
def SessionPageLoadTimeout (toMs : Int) : timeout := ⟨gs "page load", toMs⟩

/-- `SessionImplicitWaitTimeout` from the source: no validation is performed. -/
def SessionImplicitWaitTimeout (toMs : Int) : timeout := ⟨gs "implicit", toMs⟩

/-- Go's conversion `string(index)` of an unsigned integer: the string holding the
single rune with that code point (`Char.ofNat` maps invalid code points to NUL where
Go would use U+FFFD; no claim depends on the replacement character). -/
def goStringOfRune (n : Nat) : GoString := [Char.ofNat n]

/-- `ByIndex` from the source: rejects indices above 65535, otherwise builds an
`index` locator. -/
def ByIndex (index : Nat) : Except WDError by_ :=
  if 65535 < index then
    Except.error (WDError.invalidArgument (gs "Index out of range in ByIndex()")
      (gs "index") (goStringOfRune index))
  else Except.ok ⟨gs "index", ByValue.uint index⟩

/-- `ByCSSSelector` from the source: rejects the empty selector, otherwise builds a
`css selector` locator holding the selector verbatim. -/
def ByCSSSelector (selector : GoString) : Except WDError by_ :=
  if selector = [] then
    Except.error (WDError.invalidArgument (gs "Argument empty in ByCSSSelector()")
      (gs "selector") selector)
  else Except.ok ⟨gs "css selector", ByValue.str selector⟩

/-- The `seleniumWebDriver` struct. The `apiService` field is modelled as the
explicit `Transport` argument of each command rather than as a field, so driver
values stay decidably comparable. -/
structure seleniumWebDriver where
  seleniumURL : GoString
  sessionID : GoString
  capabilities : Capabilities
deriving DecidableEq

/-- `NewSeleniumWebDriver` from the source: validates non-emptiness, the
`http://`/`https://` scheme and a non-empty browser name, then strips one trailing
slash. Returns the error strings of the source's `errors.New` calls. -/
def NewSeleniumWebDriver (serviceURL : GoString) (capabilities : Capabilities) :
    Except GoString seleniumWebDriver :=
  if serviceURL = [] then Except.error (gs "Provided Selenium URL is invalid")
  else if ¬(hasPrefixGo serviceURL (gs "http://") = true ∨
            hasPrefixGo serviceURL (gs "https://") = true) then
    Except.error (gs "Provided Selenium URL is invalid.")
  else if capabilities.Browser.BrowserName = [] then
    Except.error (gs "An invalid capabilities object was provided.")
  else
    Except.ok ⟨if hasSuffixGo serviceURL (gs "/") = true then
                 trimSuffixGo serviceURL (gs "/")
               else serviceURL,
               [], capabilities⟩

/-- `s.DriverURL()`. -/
def seleniumWebDriver.DriverURL (s : seleniumWebDriver) : GoString := s.seleniumURL

/-- Case-folded key comparison, modelling `encoding/json`'s case-insensitive match
of object keys against struct field tags. -/
def keyMatches (k field : GoString) : Bool := k.map Char.toLower = field.map Char.toLower

/-- One pass of `encoding/json` over an object's fields for a single string-typed
struct field tagged `key`: later occurrences overwrite earlier ones, `null` leaves
the field untouched, a non-string non-null value marks a type error. -/
def stringFieldFold (key : GoString) : List (GoString × Json) → GoString → Bool →
    GoString × Bool
  | [], st, bad => (st, bad)
  | (k, v) :: rest, st, bad =>
    if keyMatches k key = true then
      match v with
      | Json.str sv => stringFieldFold key rest sv bad
      | Json.null => stringFieldFold key rest st bad
      | _ => stringFieldFold key rest st true
    else stringFieldFold key rest st bad

/-- `json.Unmarshal(resp, &stateResponse)` from the Go standard library: malformed
bytes fail; a top-level `null` is a no-op (zero-valued struct); a top-level object
assigns the `state` field when present as a string and fails when it is present
with a non-string type; any other top-level value fails. Extra keys are ignored and
a missing `state` key leaves the field as the empty string — this is Go's
behaviour, not a shape check. -/
def unmarshalState : RawPayload → Except GoString stateResponse
  | RawPayload.malformed _ =>
    Except.error (gs "invalid character in JSON input")
  | RawPayload.wellFormed v _ =>
    match v with
    | Json.null => Except.ok ⟨[]⟩
    | Json.obj fields =>
      match stringFieldFold (gs "state") fields [] false with
      | (st, false) => Except.ok ⟨st⟩
      | (_, true) =>
        Except.error (gs "json: cannot unmarshal value into field state of type string")
    | _ =>
      Except.error (gs "json: cannot unmarshal value into Go value of type stateResponse")

/-- Like `stringFieldFold` but for the two string fields `state` and `value` of
`valueResponse`. -/
def valueFieldsFold : List (GoString × Json) → GoString → GoString → Bool →
    GoString × GoString × Bool
  | [], st, vl, bad => (st, vl, bad)
  | (k, v) :: rest, st, vl, bad =>
    if keyMatches k (gs "state") = true then
      match v with
      | Json.str sv => valueFieldsFold rest sv vl bad
      | Json.null => valueFieldsFold rest st vl bad
      | _ => valueFieldsFold rest st vl true
    else if keyMatches k (gs "value") = true then
      match v with
      | Json.str sv => valueFieldsFold rest st sv bad
      | Json.null => valueFieldsFold rest st vl bad
      | _ => valueFieldsFold rest st vl true
    else valueFieldsFold rest st vl bad

/-- `json.Unmarshal(resp, &valueResponse)`, with the same Go semantics as
`unmarshalState` applied to the `state` and `value` fields. -/
def unmarshalValue : RawPayload → Except GoString valueResponse
  | RawPayload.malformed _ =>
    Except.error (gs "invalid character in JSON input")
  | RawPayload.wellFormed v _ =>
    match v with
    | Json.null => Except.ok ⟨[], []⟩
    | Json.obj fields =>
      match valueFieldsFold fields [] [] false with
      | (st, vl, false) => Except.ok ⟨st, vl⟩
      | (_, _, true) =>
        Except.error (gs "json: cannot unmarshal value into field of type string")
    | _ =>
      Except.error (gs "json: cannot unmarshal value into Go value of type valueResponse")

/-- Hexadecimal digit, lower case, as used by `encoding/json`'s escape sequences. -/
def hexDig (n : Nat) : Char := if n < 10 then Char.ofNat (48 + n) else Char.ofNat (87 + n)

/-- `encoding/json` string escaping: quotes, backslashes, newline, carriage return
and tab get two-character escapes; `<`, `>`, `&` (HTML escaping, on by default) and
remaining control characters get `\u00XX`. -/
def jsonEscapeChar (c : Char) : GoString :=
  if c = '"' then gs "\\\""
  else if c = '\\' then gs "\\\\"
  else if c = '\n' then gs "\\n"
  else if c = '\r' then gs "\\r"
  else if c = '\t' then gs "\\t"
  else if c = '<' ∨ c = '>' ∨ c = '&' ∨ c.toNat < 32 then
    gs "\\u00" ++ [hexDig (c.toNat / 16), hexDig (c.toNat % 16)]
  else [c]

/-- `encoding/json` encoding of a Go string. -/
def jsonEncodeString (u : GoString) : GoString :=
  ['"'] ++ (u.map jsonEscapeChar).flatten ++ ['"']

/-- `json.Marshal(map[string]string\x7b"url": goURL\x7d)` as performed by `Go()`. This
marshalling never fails in Go, so it is embedded as a total function and the
source's unreachable `newMarshallingError` branch is dropped. -/
def marshalGoParams (u : GoString) : GoString :=
  gs "\x7b\"url\":" ++ jsonEncodeString u ++ gs "\x7d"

/-- `s.stateRequest(req)` from the source: one transport call; a transport error
becomes a Communication error carrying the calling method, URL and response bytes;
a decode failure becomes an Unmarshalling error carrying the calling method and the
verbatim bytes. The second component is the trace of transport invocations. -/
def stateRequest (api : Transport) (req : request) :
    Except WDError stateResponse × List request :=
  match (api req).err with
  | some e =>
    (Except.error (WDError.communication e req.callingMethod req.url (api req).resp.raw),
     [req])
  | none =>
    match unmarshalState (api req).resp with
    | Except.error cause =>
      (Except.error (WDError.unmarshalling cause req.callingMethod (api req).resp.raw),
       [req])
    | Except.ok response => (Except.ok response, [req])

/-- `s.valueRequest(req)` from the source, exactly like `stateRequest` but decoding
the `\x7b state, value \x7d` shape. -/
def valueRequest (api : Transport) (req : request) :
    Except WDError valueResponse × List request :=
  match (api req).err with
  | some e =>
    (Except.error (WDError.communication e req.callingMethod req.url (api req).resp.raw),
     [req])
  | none =>
    match unmarshalValue (api req).resp with
    | Except.error cause =>
      (Except.error (WDError.unmarshalling cause req.callingMethod (api req).resp.raw),
       [req])
    | Except.ok response => (Except.ok response, [req])

/-- `GoResponse` from the source. -/
structure GoResponse where
  State : GoString
deriving DecidableEq

/-- `CurrentURLResponse` from the source. -/
structure CurrentURLResponse where
  State : GoString
  URL : GoString
deriving DecidableEq

/-- `BackResponse` from the source. -/
structure BackResponse where
  State : GoString
deriving DecidableEq

/-- `ForwardResponse` from the source. -/
structure ForwardResponse where
  State : GoString
deriving DecidableEq

/-- `RefreshResponse` from the source. -/
structure RefreshResponse where
  State : GoString
deriving DecidableEq

/-- `TitleResponse` from the source. -/
structure TitleResponse where
  State : GoString
  Title : GoString
deriving DecidableEq

/-- Modelled from the spec: `CreateSessionResponse` (`session.go` is not under
`src/`); per §6 the create-session response carries the session id. -/
structure CreateSessionResponse where
  sessionID : GoString
deriving DecidableEq

/-- Modelled from the spec: `DeleteSessionResponse` (`session.go` is not under
`src/`), a state-only response. -/
structure DeleteSessionResponse where
  State : GoString
deriving DecidableEq

/-- The outcome of one driver method call: the returned value or classified error,
the trace of transport invocations, and the driver value after the call. -/
structure CommandResult (R : Type) where
  result : Except WDError R
  trace : List request
  driver : seleniumWebDriver

/-- `s.Go(goURL)` from the source: fails fast with a session error on an empty
session id, rejects target URLs without an `https://`/`http://` scheme, otherwise
POSTs the marshalled URL to `/session/id/url`. The source never assigns to the
receiver's fields, so the resulting driver is `s` in every branch. -/
def seleniumWebDriver.Go (s : seleniumWebDriver) (api : Transport) (goURL : GoString) :
    CommandResult GoResponse :=
  if s.sessionID = [] then
    ⟨Except.error (WDError.missingSession (gs "Go()")), [], s⟩
  else if goURL = [] ∨ ¬(hasPrefixGo goURL (gs "https://") = true ∨
                         hasPrefixGo goURL (gs "http://") = true) then
    ⟨Except.error (WDError.invalidURL (gs "Invalid URL in Go()") goURL), [], s⟩
  else
    match stateRequest api ⟨s.seleniumURL ++ gs "/session/" ++ s.sessionID ++ gs "/url",
                            gs "POST", some (marshalGoParams goURL), gs "Go"⟩ with
    | (Except.error e, tr) => ⟨Except.error e, tr, s⟩
    | (Except.ok resp, tr) => ⟨Except.ok ⟨resp.State⟩, tr, s⟩

/-- `s.CurrentURL()` from the source: GET `/session/id/url` decoded with the
value shape. -/
def seleniumWebDriver.CurrentURL (s : seleniumWebDriver) (api : Transport) :
    CommandResult CurrentURLResponse :=
  if s.sessionID = [] then
    ⟨Except.error (WDError.missingSession (gs "CurrentURL()")), [], s⟩
  else
    match valueRequest api ⟨s.seleniumURL ++ gs "/session/" ++ s.sessionID ++ gs "/url",
                            gs "GET", none, gs "CurrentURL"⟩ with
    | (Except.error e, tr) => ⟨Except.error e, tr, s⟩
    | (Except.ok resp, tr) => ⟨Except.ok ⟨resp.State, resp.Value⟩, tr, s⟩

/-- `s.Back()` from the source: POST `/session/id/back`, state shape. -/
def seleniumWebDriver.Back (s : seleniumWebDriver) (api : Transport) :
    CommandResult BackResponse :=
  if s.sessionID = [] then
    ⟨Except.error (WDError.missingSession (gs "Back()")), [], s⟩
  else
    match stateRequest api ⟨s.seleniumURL ++ gs "/session/" ++ s.sessionID ++ gs "/back",
                            gs "POST", none, gs "Back"⟩ with
    | (Except.error e, tr) => ⟨Except.error e, tr, s⟩
    | (Except.ok resp, tr) => ⟨Except.ok ⟨resp.State⟩, tr, s⟩

/-- `s.Forward()` from the source: POST `/session/id/forward`, state shape. -/
def seleniumWebDriver.Forward (s : seleniumWebDriver) (api : Transport) :
    CommandResult ForwardResponse :=
  if s.sessionID = [] then
    ⟨Except.error (WDError.missingSession (gs "Forward()")), [], s⟩
  else
    match stateRequest api ⟨s.seleniumURL ++ gs "/session/" ++ s.sessionID ++ gs "/forward",
                            gs "POST", none, gs "Forward"⟩ with
    | (Except.error e, tr) => ⟨Except.error e, tr, s⟩
    | (Except.ok resp, tr) => ⟨Except.ok ⟨resp.State⟩, tr, s⟩

/-- `s.Refresh()` from the source: POST `/session/id/refresh`, state shape. -/
def seleniumWebDriver.Refresh (s : seleniumWebDriver) (api : Transport) :
    CommandResult RefreshResponse :=
  if s.sessionID = [] then
    ⟨Except.error (WDError.missingSession (gs "Refresh()")), [], s⟩
  else
    match stateRequest api ⟨s.seleniumURL ++ gs "/session/" ++ s.sessionID ++ gs "/refresh",
                            gs "POST", none, gs "Refresh"⟩ with
    | (Except.error e, tr) => ⟨Except.error e, tr, s⟩
    | (Except.ok resp, tr) => ⟨Except.ok ⟨resp.State⟩, tr, s⟩

/-- `s.Title()` from the source: GET `/session/id/title`, value shape. -/
def seleniumWebDriver.Title (s : seleniumWebDriver) (api : Transport) :
    CommandResult TitleResponse :=
  if s.sessionID = [] then
    ⟨Except.error (WDError.missingSession (gs "Title()")), [], s⟩
  else
    match valueRequest api ⟨s.seleniumURL ++ gs "/session/" ++ s.sessionID ++ gs "/title",
                            gs "GET", none, gs "Title"⟩ with
    | (Except.error e, tr) => ⟨Except.error e, tr, s⟩
    | (Except.ok resp, tr) => ⟨Except.ok ⟨resp.State, resp.Value⟩, tr, s⟩

/-- Modelled from the spec: the JSON body of `CreateSession` ("body = capabilities
descriptor", §6; `session.go` is not under `src/`). -/
def marshalCapabilities (c : Capabilities) : GoString :=
  gs "\x7b\"desiredCapabilities\":\x7b\"browserName\":" ++
    jsonEncodeString c.browser.browserName ++ gs "\x7d\x7d"

/-- Modelled from the spec: decoding the create-session reply ("response = session
id + capabilities", §6): a string-typed `sessionId` field of a JSON object, with
the same Go decoding semantics as the other decoders. -/
def unmarshalSessionID : RawPayload → Except GoString GoString
  | RawPayload.malformed _ =>
    Except.error (gs "invalid character in JSON input")
  | RawPayload.wellFormed v _ =>
    match v with
    | Json.obj fields =>
      match stringFieldFold (gs "sessionId") fields [] false with
      | (sid, false) => Except.ok sid
      | (_, true) =>
        Except.error (gs "json: cannot unmarshal value into field sessionId of type string")
    | _ =>
      Except.error (gs "json: cannot unmarshal value into create session response")

/-- Modelled from the spec: `CreateSession` (`session.go` is not under `src/`).
Per §6 it POSTs the capabilities descriptor to `/session`; per §7 "session state is
only mutated on confirmed success", so the session id is assigned exactly in the
fully successful branch. -/
def seleniumWebDriver.CreateSession (s : seleniumWebDriver) (api : Transport) :
    CommandResult CreateSessionResponse :=
  match (api ⟨s.seleniumURL ++ gs "/session", gs "POST",
              some (marshalCapabilities s.capabilities), gs "CreateSession"⟩).err with
  | some e =>
    ⟨Except.error (WDError.communication e (gs "CreateSession")
        (s.seleniumURL ++ gs "/session")
        (api ⟨s.seleniumURL ++ gs "/session", gs "POST",
              some (marshalCapabilities s.capabilities), gs "CreateSession"⟩).resp.raw),
     [⟨s.seleniumURL ++ gs "/session", gs "POST",
       some (marshalCapabilities s.capabilities), gs "CreateSession"⟩], s⟩
  | none =>
    match unmarshalSessionID (api ⟨s.seleniumURL ++ gs "/session", gs "POST",
              some (marshalCapabilities s.capabilities), gs "CreateSession"⟩).resp with
    | Except.error c =>
      ⟨Except.error (WDError.unmarshalling c (gs "CreateSession")
          (api ⟨s.seleniumURL ++ gs "/session", gs "POST",
                some (marshalCapabilities s.capabilities), gs "CreateSession"⟩).resp.raw),
       [⟨s.seleniumURL ++ gs "/session", gs "POST",
         some (marshalCapabilities s.capabilities), gs "CreateSession"⟩], s⟩
    | Except.ok sid =>
      ⟨Except.ok ⟨sid⟩,
       [⟨s.seleniumURL ++ gs "/session", gs "POST",
         some (marshalCapabilities s.capabilities), gs "CreateSession"⟩],
       { s with sessionID := sid }⟩

/-- Modelled from the spec: `DeleteSession` (`session.go` is not under `src/`).
Per §4.5 it is session-scoped (fails fast without a session); per §6 it issues
DELETE `/session/id`; per §3 the session id is "cleared by DeleteSession", mutated
only on confirmed success. -/
def seleniumWebDriver.DeleteSession (s : seleniumWebDriver) (api : Transport) :
    CommandResult DeleteSessionResponse :=
  if s.sessionID = [] then
    ⟨Except.error (WDError.missingSession (gs "DeleteSession()")), [], s⟩
  else
    match (api ⟨s.seleniumURL ++ gs "/session/" ++ s.sessionID, gs "DELETE",
                none, gs "DeleteSession"⟩).err with
    | some e =>
      ⟨Except.error (WDError.communication e (gs "DeleteSession")
          (s.seleniumURL ++ gs "/session/" ++ s.sessionID)
          (api ⟨s.seleniumURL ++ gs "/session/" ++ s.sessionID, gs "DELETE",
                none, gs "DeleteSession"⟩).resp.raw),
       [⟨s.seleniumURL ++ gs "/session/" ++ s.sessionID, gs "DELETE",
         none, gs "DeleteSession"⟩], s⟩
    | none =>
      match unmarshalState (api ⟨s.seleniumURL ++ gs "/session/" ++ s.sessionID,
                gs "DELETE", none, gs "DeleteSession"⟩).resp with
      | Except.error c =>
        ⟨Except.error (WDError.unmarshalling c (gs "DeleteSession")
            (api ⟨s.seleniumURL ++ gs "/session/" ++ s.sessionID, gs "DELETE",
                  none, gs "DeleteSession"⟩).resp.raw),
         [⟨s.seleniumURL ++ gs "/session/" ++ s.sessionID, gs "DELETE",
           none, gs "DeleteSession"⟩], s⟩
      | Except.ok resp =>
        ⟨Except.ok ⟨resp.State⟩,
         [⟨s.seleniumURL ++ gs "/session/" ++ s.sessionID, gs "DELETE",
           none, gs "DeleteSession"⟩],
         { s with sessionID := [] }⟩

/-! ## Shared concrete values used by witnesses and counterexamples -/

/-- A concrete capabilities descriptor with a non-empty browser name. -/
def capsFirefox : Capabilities := ⟨⟨gs "firefox"⟩⟩

/-- A concrete driver with an active session. -/
def activeDriver : seleniumWebDriver := ⟨gs "http://host:4444", gs "sid", capsFirefox⟩

/-- A concrete driver with no active session. -/
def noSessionDriver : seleniumWebDriver := ⟨gs "http://host:4444", [], capsFirefox⟩

/-- A transport double that answers every request with the state-only success
payload. -/
def apiSuccessState : Transport := fun _ =>
  ⟨RawPayload.wellFormed (Json.obj [(gs "state", Json.str (gs "success"))])
     (gs "\x7b\"state\":\"success\"\x7d"), none⟩

/-- A transport double that answers with a valid JSON object of the wrong shape. -/
def apiWrongShape : Transport := fun _ =>
  ⟨RawPayload.wellFormed (Json.obj [(gs "foo", Json.num 1)]) (gs "\x7b\"foo\":1\x7d"), none⟩

/-- A transport double that answers with bytes that are not well-formed JSON. -/
def apiMalformed : Transport := fun _ =>
  ⟨RawPayload.malformed (gs "<html>oops"), none⟩

/-- A transport double that fails at the transport level. -/
def apiDown : Transport := fun _ =>
  ⟨RawPayload.malformed [], some (gs "connection refused")⟩

/-- A concrete GET request as built by `CurrentURL`. -/
def reqGet : request :=
  ⟨gs "http://host:4444/session/sid/url", gs "GET", none, gs "CurrentURL"⟩

/-! ## Helper lemmas -/

/-- `hasPrefixGo` agrees with the prefix order on lists. -/
theorem hasPrefixGo_iff (s p : GoString) : hasPrefixGo s p = true ↔ p <+: s := by
  induction s generalizing p with
  | nil =>
    cases p with
    | nil => simp [hasPrefixGo]
    | cons b p => simp [hasPrefixGo]
  | cons a s ih =>
    cases p with
    | nil => simp [hasPrefixGo, List.nil_prefix]
    | cons b p =>
      rw [show hasPrefixGo (a :: s) (b :: p) = (decide (a = b) && hasPrefixGo s p) from rfl,
          Bool.and_eq_true, decide_eq_true_eq, ih, List.cons_prefix_cons]
      exact and_congr_left (fun _ => eq_comm)

/-- `hasSuffixGo` agrees with the suffix order on lists. -/
theorem hasSuffixGo_iff (s p : GoString) : hasSuffixGo s p = true ↔ p <:+ s := by
  rw [hasSuffixGo, hasPrefixGo_iff, List.reverse_prefix]

/-- Every branch of `stateRequest` performs exactly one transport invocation. -/
theorem stateRequest_trace (api : Transport) (req : request) :
    (stateRequest api req).2 = [req] := by
  unfold stateRequest
  cases h : (api req).err with
  | some e => rfl
  | none =>
    cases h2 : unmarshalState (api req).resp with
    | error c => rfl
    | ok r => rfl

/-- Every branch of `valueRequest` performs exactly one transport invocation. -/
theorem valueRequest_trace (api : Transport) (req : request) :
    (valueRequest api req).2 = [req] := by
  unfold valueRequest
  cases h : (api req).err with
  | some e => rfl
  | none =>
    cases h2 : unmarshalValue (api req).resp with
    | error c => rfl
    | ok r => rfl

/-! ## Claims -/

/-- Claim C2: `NewSeleniumWebDriver` returns a driver (and no error) exactly when the
service URL is non-empty, begins with `http://` or `https://`, and the capabilities
carry a non-empty browser name; every other input yields an error and no driver. -/
theorem newSeleniumWebDriver_ok_iff (serviceURL : GoString) (caps : Capabilities) :
    (∃ d, NewSeleniumWebDriver serviceURL caps = Except.ok d) ↔
      serviceURL ≠ [] ∧
      (hasPrefixGo serviceURL (gs "http://") = true ∨
       hasPrefixGo serviceURL (gs "https://") = true) ∧
      caps.Browser.BrowserName ≠ [] := by
  unfold NewSeleniumWebDriver
  split_ifs with h1 h2 h3 h4
  · constructor
    · rintro ⟨d, hd⟩; exact hd.elim
    · rintro ⟨hn, -, -⟩; exact absurd h1 hn
  · constructor
    · rintro ⟨d, hd⟩; exact hd.elim
    · rintro ⟨-, -, hb⟩; exact absurd h3 hb
  · exact ⟨fun _ => ⟨h1, h2, h3⟩, fun _ => ⟨_, rfl⟩⟩
  · exact ⟨fun _ => ⟨h1, h2, h3⟩, fun _ => ⟨_, rfl⟩⟩
  · constructor
    · rintro ⟨d, hd⟩; exact hd.elim
    · rintro ⟨-, hpre, -⟩; exact absurd hpre h2

/-- Claim C5 counterexample: `SessionScriptTimeout (-1)` performs no validation at
all — it returns a `Timeout` whose `Timeout()` is `-1` and whose `Type()` is
`script`, not an invalid-argument failure (its return type has no error channel). -/
theorem sessionScriptTimeout_neg_counterexample :
    SessionScriptTimeout (-1) = ⟨gs "script", -1⟩ ∧
    (SessionScriptTimeout (-1)).TimeoutVal = -1 ∧
    (SessionScriptTimeout (-1)).TypeStr = gs "script" :=
  ⟨rfl, rfl, rfl⟩

/-- Claim C5 (amended): the Timeout factories perform no validation; for every
argument, negative values included, each returns a Timeout whose `Type()` is
respectively `script`, `page load`, or `implicit` and whose `Timeout()` equals the
argument. -/
theorem timeout_factories_no_validation (n : Int) :
    (SessionScriptTimeout n).TypeStr = gs "script" ∧
    (SessionScriptTimeout n).TimeoutVal = n ∧
    (SessionPageLoadTimeout n).TypeStr = gs "page load" ∧
    (SessionPageLoadTimeout n).TimeoutVal = n ∧
    (SessionImplicitWaitTimeout n).TypeStr = gs "implicit" ∧
    (SessionImplicitWaitTimeout n).TimeoutVal = n :=
  ⟨rfl, rfl, rfl, rfl, rfl, rfl⟩

/-- Claim C6: `ByIndex n` succeeds with an `index` locator holding exactly `n` for
`n ≤ 65535` and fails with an invalid-argument error (never clamping) for
`n > 65535`. -/
theorem byIndex_spec (n : Nat) :
    (n ≤ 65535 → ByIndex n = Except.ok ⟨gs "index", ByValue.uint n⟩) ∧
    (65535 < n → ByIndex n = Except.error (WDError.invalidArgument
      (gs "Index out of range in ByIndex()") (gs "index") (goStringOfRune n))) := by
  constructor
  · intro h; rw [ByIndex, if_neg (by omega)]
  · intro h; rw [ByIndex, if_pos h]

/-- Claim C6 witness: the boundary values 65535 and 65536. -/
theorem byIndex_spec_witness :
    ByIndex 65535 = Except.ok ⟨gs "index", ByValue.uint 65535⟩ ∧
    ByIndex 65536 = Except.error (WDError.invalidArgument
      (gs "Index out of range in ByIndex()") (gs "index") (goStringOfRune 65536)) :=
  ⟨(byIndex_spec 65535).1 (by decide), (byIndex_spec 65536).2 (by decide)⟩

/-- Claim C7: `ByCSSSelector ""` fails with an invalid-argument error; for every
non-empty selector it succeeds with a `css selector` locator holding the selector
string unmodified. -/
theorem byCSSSelector_spec (s : GoString) :
    (s = [] → ByCSSSelector s = Except.error (WDError.invalidArgument
      (gs "Argument empty in ByCSSSelector()") (gs "selector") s)) ∧
    (s ≠ [] → ByCSSSelector s = Except.ok ⟨gs "css selector", ByValue.str s⟩) := by
  constructor
  · intro h; rw [ByCSSSelector, if_pos h]
  · intro h; rw [ByCSSSelector, if_neg h]

/-- Claim C7 witness: the empty selector and `.foo`. -/
theorem byCSSSelector_spec_witness :
    ByCSSSelector [] = Except.error (WDError.invalidArgument
      (gs "Argument empty in ByCSSSelector()") (gs "selector") []) ∧
    ByCSSSelector (gs ".foo") =
      Except.ok ⟨gs "css selector", ByValue.str (gs ".foo")⟩ :=
  ⟨(byCSSSelector_spec []).1 rfl, (byCSSSelector_spec (gs ".foo")).2 (by decide)⟩

/-- Claim C1: on a driver whose session id is empty, each of Go, CurrentURL, Back,
Forward, Refresh and Title returns the MissingSession error naming the calling
command, performs no transport invocation (empty trace), and leaves the driver
unchanged. -/
theorem missingSession_fast_fail (s : seleniumWebDriver) (api : Transport)
    (u : GoString) (h : s.sessionID = []) :
    s.Go api u = ⟨Except.error (WDError.missingSession (gs "Go()")), [], s⟩ ∧
    s.CurrentURL api = ⟨Except.error (WDError.missingSession (gs "CurrentURL()")), [], s⟩ ∧
    s.Back api = ⟨Except.error (WDError.missingSession (gs "Back()")), [], s⟩ ∧
    s.Forward api = ⟨Except.error (WDError.missingSession (gs "Forward()")), [], s⟩ ∧
    s.Refresh api = ⟨Except.error (WDError.missingSession (gs "Refresh()")), [], s⟩ ∧
    s.Title api = ⟨Except.error (WDError.missingSession (gs "Title()")), [], s⟩ := by
  refine ⟨?_, ?_, ?_, ?_, ?_, ?_⟩
  · rw [seleniumWebDriver.Go, if_pos h]
  · rw [seleniumWebDriver.CurrentURL, if_pos h]
  · rw [seleniumWebDriver.Back, if_pos h]
  · rw [seleniumWebDriver.Forward, if_pos h]
  · rw [seleniumWebDriver.Refresh, if_pos h]
  · rw [seleniumWebDriver.Title, if_pos h]

/-- Claim C1 witness: the fast-fail on a concrete sessionless driver, with a live
transport double that would answer if it were (wrongly) called. -/
theorem missingSession_fast_fail_witness :
    noSessionDriver.Go apiSuccessState (gs "https://x") =
      ⟨Except.error (WDError.missingSession (gs "Go()")), [], noSessionDriver⟩ ∧
    noSessionDriver.CurrentURL apiSuccessState =
      ⟨Except.error (WDError.missingSession (gs "CurrentURL()")), [], noSessionDriver⟩ ∧
    noSessionDriver.Back apiSuccessState =
      ⟨Except.error (WDError.missingSession (gs "Back()")), [], noSessionDriver⟩ ∧
    noSessionDriver.Forward apiSuccessState =
      ⟨Except.error (WDError.missingSession (gs "Forward()")), [], noSessionDriver⟩ ∧
    noSessionDriver.Refresh apiSuccessState =
      ⟨Except.error (WDError.missingSession (gs "Refresh()")), [], noSessionDriver⟩ ∧
    noSessionDriver.Title apiSuccessState =
      ⟨Except.error (WDError.missingSession (gs "Title()")), [], noSessionDriver⟩ :=
  missingSession_fast_fail noSessionDriver apiSuccessState (gs "https://x") rfl

/-- Claim C8: when the transport fails, `stateRequest` and `valueRequest` return a
Communication error carrying the calling command name, the request URL and the raw
response bytes received, and no response value (the `Except` is an error, so there
is no ok payload). -/
theorem transport_failure_communication (api : Transport) (req : request)
    (e : GoString) (h : (api req).err = some e) :
    stateRequest api req =
      (Except.error (WDError.communication e req.callingMethod req.url
        (api req).resp.raw), [req]) ∧
    valueRequest api req =
      (Except.error (WDError.communication e req.callingMethod req.url
        (api req).resp.raw), [req]) := by
  constructor
  · unfold stateRequest; rw [h]
  · unfold valueRequest; rw [h]

/-- Claim C8 witness: a concrete transport-level failure. -/
theorem transport_failure_communication_witness :
    stateRequest apiDown reqGet =
      (Except.error (WDError.communication (gs "connection refused")
        (gs "CurrentURL") (gs "http://host:4444/session/sid/url") []), [reqGet]) ∧
    valueRequest apiDown reqGet =
      (Except.error (WDError.communication (gs "connection refused")
        (gs "CurrentURL") (gs "http://host:4444/session/sid/url") []), [reqGet]) :=
  transport_failure_communication apiDown reqGet (gs "connection refused") rfl

/-- Claim C4: with an active session, `Go ""` and `Go "ftp://x"` fail with the
InvalidURL error and an empty trace (no transport invocation); `Go "https://x"`
performs exactly one transport invocation: a POST to
`serverURL ++ "/session/" ++ sessionID ++ "/url"` whose body is the JSON encoding
of the url parameter map. -/
theorem go_url_validation (s : seleniumWebDriver) (api : Transport)
    (h : s.sessionID ≠ []) :
    s.Go api [] =
      ⟨Except.error (WDError.invalidURL (gs "Invalid URL in Go()") []), [], s⟩ ∧
    s.Go api (gs "ftp://x") =
      ⟨Except.error (WDError.invalidURL (gs "Invalid URL in Go()") (gs "ftp://x")),
       [], s⟩ ∧
    (s.Go api (gs "https://x")).trace =
      [⟨s.seleniumURL ++ gs "/session/" ++ s.sessionID ++ gs "/url", gs "POST",
        some (gs "\x7b\"url\":\"https://x\"\x7d"), gs "Go"⟩] := by
  refine ⟨?_, ?_, ?_⟩
  · rw [seleniumWebDriver.Go, if_neg h, if_pos (Or.inl rfl)]
  · rw [seleniumWebDriver.Go, if_neg h, if_pos (by decide)]
  · rw [seleniumWebDriver.Go, if_neg h, if_neg (by decide)]
    have htr := stateRequest_trace api
      ⟨s.seleniumURL ++ gs "/session/" ++ s.sessionID ++ gs "/url",
       gs "POST", some (marshalGoParams (gs "https://x")), gs "Go"⟩
    rcases hsr : stateRequest api
      ⟨s.seleniumURL ++ gs "/session/" ++ s.sessionID ++ gs "/url",
       gs "POST", some (marshalGoParams (gs "https://x")), gs "Go"⟩ with ⟨res, tr⟩
    rw [hsr] at htr
    cases res
    · exact htr
    · exact htr

/-- Claim C4 witness: the three calls on a concrete driver with a session. -/
theorem go_url_validation_witness :
    activeDriver.Go apiSuccessState [] =
      ⟨Except.error (WDError.invalidURL (gs "Invalid URL in Go()") []), [],
       activeDriver⟩ ∧
    activeDriver.Go apiSuccessState (gs "ftp://x") =
      ⟨Except.error (WDError.invalidURL (gs "Invalid URL in Go()") (gs "ftp://x")),
       [], activeDriver⟩ ∧
    (activeDriver.Go apiSuccessState (gs "https://x")).trace =
      [⟨gs "http://host:4444" ++ gs "/session/" ++ gs "sid" ++ gs "/url", gs "POST",
        some (gs "\x7b\"url\":\"https://x\"\x7d"), gs "Go"⟩] :=
  go_url_validation activeDriver apiSuccessState (by decide)

/-- Claim C3 counterexample: a transport reply whose bytes are a VALID JSON object
of the wrong top-level shape (a single unknown key `foo`) is decoded by both
`stateRequest` and `valueRequest` without any Unmarshalling error: Go's decoder
ignores unknown keys and zero-fills missing ones, so both return ok with
empty-string fields, contradicting the claim that such payloads yield an
Unmarshalling error. -/
theorem wrong_shape_decodes_ok_counterexample :
    stateRequest apiWrongShape reqGet = (Except.ok ⟨[]⟩, [reqGet]) ∧
    valueRequest apiWrongShape reqGet = (Except.ok ⟨[], []⟩, [reqGet]) := by
  constructor
  · rfl
  · rfl

/-- Claim C3 (amended): whenever decoding actually fails — malformed bytes, a
well-formed top-level value that Go cannot unmarshal into the response struct, or a
state/value field present with a non-string type — `stateRequest` and
`valueRequest` return an Unmarshalling error carrying the calling command name and
the exact raw bytes received, verbatim; a well-formed JSON object merely lacking
the expected keys is instead decoded successfully with empty fields. -/
theorem unmarshalling_error_carries_raw (api : Transport) (req : request)
    (h : (api req).err = none) :
    (∀ c, unmarshalState (api req).resp = Except.error c →
      stateRequest api req =
        (Except.error (WDError.unmarshalling c req.callingMethod (api req).resp.raw),
         [req])) ∧
    (∀ c, unmarshalValue (api req).resp = Except.error c →
      valueRequest api req =
        (Except.error (WDError.unmarshalling c req.callingMethod (api req).resp.raw),
         [req])) := by
  constructor
  · intro c hc; unfold stateRequest; rw [h, hc]
  · intro c hc; unfold valueRequest; rw [h, hc]

/-- Claim C3 witness: malformed bytes produce the Unmarshalling error carrying the
calling command name and the verbatim raw bytes. -/
theorem unmarshalling_error_carries_raw_witness :
    stateRequest apiMalformed reqGet =
      (Except.error (WDError.unmarshalling (gs "invalid character in JSON input")
        (gs "CurrentURL") (gs "<html>oops")), [reqGet]) ∧
    valueRequest apiMalformed reqGet =
      (Except.error (WDError.unmarshalling (gs "invalid character in JSON input")
        (gs "CurrentURL") (gs "<html>oops")), [reqGet]) :=
  ⟨(unmarshalling_error_carries_raw apiMalformed reqGet rfl).1 _ rfl,
   (unmarshalling_error_carries_raw apiMalformed reqGet rfl).2 _ rfl⟩

/-- Claim C10: Go, CurrentURL, Back, Forward, Refresh and Title leave the driver
(its seleniumURL, sessionID and capabilities fields) unchanged whether they succeed
or fail; CreateSession and DeleteSession leave the driver unchanged whenever they
do not succeed, so session state is mutated only on confirmed success. -/
theorem commands_preserve_driver (s : seleniumWebDriver) (api : Transport)
    (u : GoString) :
    (s.Go api u).driver = s ∧
    (s.CurrentURL api).driver = s ∧
    (s.Back api).driver = s ∧
    (s.Forward api).driver = s ∧
    (s.Refresh api).driver = s ∧
    (s.Title api).driver = s ∧
    ((s.CreateSession api).result.isOk = false → (s.CreateSession api).driver = s) ∧
    ((s.DeleteSession api).result.isOk = false → (s.DeleteSession api).driver = s) := by
  refine ⟨?_, ?_, ?_, ?_, ?_, ?_, ?_, ?_⟩
  · unfold seleniumWebDriver.Go
    split
    · rfl
    split
    · rfl
    split <;> rfl
  · unfold seleniumWebDriver.CurrentURL
    split
    · rfl
    split <;> rfl
  · unfold seleniumWebDriver.Back
    split
    · rfl
    split <;> rfl
  · unfold seleniumWebDriver.Forward
    split
    · rfl
    split <;> rfl
  · unfold seleniumWebDriver.Refresh
    split
    · rfl
    split <;> rfl
  · unfold seleniumWebDriver.Title
    split
    · rfl
    split <;> rfl
  · intro hfail
    unfold seleniumWebDriver.CreateSession at hfail ⊢
    cases he : (api ⟨s.seleniumURL ++ gs "/session", gs "POST",
        some (marshalCapabilities s.capabilities), gs "CreateSession"⟩).err with
    | some e => rfl
    | none =>
      cases hu : unmarshalSessionID (api ⟨s.seleniumURL ++ gs "/session", gs "POST",
          some (marshalCapabilities s.capabilities), gs "CreateSession"⟩).resp with
      | error c => rfl
      | ok sid => simp [he, hu, Except.isOk, Except.toBool] at hfail
  · intro hfail
    unfold seleniumWebDriver.DeleteSession at hfail ⊢
    by_cases hsid : s.sessionID = []
    · rw [if_pos hsid]
    · rw [if_neg hsid] at hfail ⊢
      cases he : (api ⟨s.seleniumURL ++ gs "/session/" ++ s.sessionID, gs "DELETE",
          none, gs "DeleteSession"⟩).err with
      | some e => rfl
      | none =>
        cases hu : unmarshalState (api ⟨s.seleniumURL ++ gs "/session/" ++ s.sessionID,
            gs "DELETE", none, gs "DeleteSession"⟩).resp with
        | error c => rfl
        | ok r =>
          simp only [he, hu, Except.isOk, Except.toBool] at hfail
          exact Bool.noConfusion hfail

/-- Claim C10 witness: on a concrete driver with a failing transport, every
navigation command and both session commands leave the driver unchanged. -/
theorem commands_preserve_driver_witness :
    (activeDriver.Go apiDown (gs "https://x")).driver = activeDriver ∧
    (activeDriver.CurrentURL apiDown).driver = activeDriver ∧
    (activeDriver.Back apiDown).driver = activeDriver ∧
    (activeDriver.Forward apiDown).driver = activeDriver ∧
    (activeDriver.Refresh apiDown).driver = activeDriver ∧
    (activeDriver.Title apiDown).driver = activeDriver ∧
    (activeDriver.CreateSession apiDown).driver = activeDriver ∧
    (activeDriver.DeleteSession apiDown).driver = activeDriver :=
  ⟨(commands_preserve_driver activeDriver apiDown (gs "https://x")).1,
   (commands_preserve_driver activeDriver apiDown (gs "https://x")).2.1,
   (commands_preserve_driver activeDriver apiDown (gs "https://x")).2.2.1,
   (commands_preserve_driver activeDriver apiDown (gs "https://x")).2.2.2.1,
   (commands_preserve_driver activeDriver apiDown (gs "https://x")).2.2.2.2.1,
   (commands_preserve_driver activeDriver apiDown (gs "https://x")).2.2.2.2.2.1,
   (commands_preserve_driver activeDriver apiDown (gs "https://x")).2.2.2.2.2.2.1
     (by decide),
   (commands_preserve_driver activeDriver apiDown (gs "https://x")).2.2.2.2.2.2.2
     (by decide)⟩

/-- A list of the form `p ++ [c]` that is a prefix of `t ++ [c]` is either already
a prefix of `t`, or is all of `t ++ [c]` (so `t = p`). -/
theorem prefix_transfer {p t : GoString} {c : Char}
    (hp : (p ++ [c]) <+: (t ++ [c])) : (p ++ [c]) <+: t ∨ t = p := by
  have hlen : p.length + 1 ≤ t.length + 1 := by
    have := hp.length_le
    simpa using this
  rcases Nat.lt_or_ge p.length t.length with hlt | hge
  · left
    have h1 := List.prefix_iff_eq_take.mp hp
    rw [List.length_append, List.length_singleton] at h1
    rw [List.take_append_of_le_length (by omega)] at h1
    rw [h1]
    exact List.take_prefix _ _
  · right
    have heq : p.length = t.length := by omega
    have hfull : p ++ [c] = t ++ [c] := hp.eq_of_length (by simp [heq])
    exact (List.append_cancel_right hfull).symm

/-- Claim C9: for every valid serviceURL ending in a single trailing slash (its
stem `t` does not itself end in a slash), construction from `t ++ "/"` and
construction from `t` both succeed and the resulting drivers report the same
`DriverURL()`. -/
theorem trailing_slash_normalization (t : GoString) (caps : Capabilities)
    (d : seleniumWebDriver)
    (hns : hasSuffixGo t (gs "/") = false)
    (h : NewSeleniumWebDriver (t ++ gs "/") caps = Except.ok d) :
    ∃ d2, NewSeleniumWebDriver t caps = Except.ok d2 ∧
      d.DriverURL = d2.DriverURL := by
  have hne : ¬(t ++ gs "/" = []) := by
    intro hc
    exact absurd (List.append_eq_nil.mp hc).2 (by decide)
  rw [NewSeleniumWebDriver, if_neg hne] at h
  by_cases hpre : hasPrefixGo (t ++ gs "/") (gs "http://") = true ∨
                  hasPrefixGo (t ++ gs "/") (gs "https://") = true
  case neg =>
    rw [if_pos hpre] at h
    exact Except.noConfusion h
  case pos =>
    rw [if_neg (not_not_intro hpre)] at h
    by_cases hb : caps.Browser.BrowserName = []
    · rw [if_pos hb] at h
      exact Except.noConfusion h
    · rw [if_neg hb] at h
      have hsuf : hasSuffixGo (t ++ gs "/") (gs "/") = true := by
        rw [hasSuffixGo_iff]
        exact ⟨t, rfl⟩
      rw [if_pos hsuf] at h
      have htrim : trimSuffixGo (t ++ gs "/") (gs "/") = t := by
        rw [trimSuffixGo, if_pos hsuf]
        have hl : (t ++ gs "/").length - (gs "/").length = t.length := by
          have h1 : (gs "/").length = 1 := rfl
          rw [List.length_append, h1]
          omega
        rw [hl]
        exact List.take_left t (gs "/")
      rw [htrim] at h
      have hd : d = ⟨t, [], caps⟩ := by
        injection h with h2
        exact h2.symm
      have hslash : gs "/" = ['/'] := rfl
      have hpret : hasPrefixGo t (gs "http://") = true ∨
          hasPrefixGo t (gs "https://") = true := by
        rcases hpre with hA | hB
        · left
          rw [hasPrefixGo_iff] at hA ⊢
          have hsp : gs "http://" = gs "http:/" ++ ['/'] := rfl
          rw [hsp, hslash] at hA
          rw [hsp]
          rcases prefix_transfer hA with hgood | hbad
          · exact hgood
          · exfalso
            rw [hbad] at hns
            exact absurd hns (by decide)
        · right
          rw [hasPrefixGo_iff] at hB ⊢
          have hsp : gs "https://" = gs "https:/" ++ ['/'] := rfl
          rw [hsp, hslash] at hB
          rw [hsp]
          rcases prefix_transfer hB with hgood | hbad
          · exact hgood
          · exfalso
            rw [hbad] at hns
            exact absurd hns (by decide)
      have hneT : ¬(t = []) := by
        intro h0
        rcases hpret with hA | hB
        · rw [h0] at hA
          exact absurd hA (by decide)
        · rw [h0] at hB
          exact absurd hB (by decide)
      have hnst : ¬(hasSuffixGo t (gs "/") = true) := by
        rw [hns]
        exact Bool.false_ne_true
      refine ⟨⟨t, [], caps⟩, ?_, ?_⟩
      · rw [NewSeleniumWebDriver, if_neg hneT, if_neg (not_not_intro hpret),
            if_neg hb, if_neg hnst]
      · rw [hd]

/-- Claim C9 witness: constructing from a concrete URL with and without the
trailing slash yields the same `DriverURL()`. -/
theorem trailing_slash_normalization_witness :
    ∃ d2, NewSeleniumWebDriver (gs "http://host:4444") capsFirefox = Except.ok d2 ∧
      seleniumWebDriver.DriverURL ⟨gs "http://host:4444", [], capsFirefox⟩ =
        d2.DriverURL :=
  trailing_slash_normalization (gs "http://host:4444") capsFirefox
    ⟨gs "http://host:4444", [], capsFirefox⟩ (by decide) (by decide)
